import Mathlib

/-!
# Verification of the alti-cli remote state poller and precondition checker

Shallow embedding of the concurrency-free core of the repository:

* `db.Image` and the two variants of `ImageStateChecker.checkState`
  (files `src/unnamed/part_003` and `src/unnamed/part_004`, both
  `package cloud`), modelled as pure functions over an explicit list of
  remote-query responses (the oracle replacing `gql.ProjectImage`).
* `ImageStateChecker.Run`'s worker count arithmetic and its
  wait-group/close synchronisation, the latter as a small transition system.
* `service.Check` and `service.CheckPID` from `src/service/checker.go`.
-/

/-- The fields of `db.Image` used by `ImageStateChecker.checkState`. -/
structure Image where
  PID : String
  IID : String
  State : String
  Error : String
deriving Repr, DecidableEq

/-- The part of a successful `gql.ProjectImage` reply that `checkState`
reads: the remote state string and the server-side error list. -/
structure QImg where
  State : String
  Error : List String
deriving Repr, DecidableEq

/-- One remote-query outcome: either a transport error (`err != nil` in the
Go code, carrying `err.Error()`) or a `QImg`. -/
inductive Resp where
  | error (e : String)
  | ok (q : QImg)
deriving Repr, DecidableEq

/-- Modelled from the spec: `errors.ErrClientTimeout` lives in the `errors`
package, whose file defining it is not part of the sources; the spec calls
it the client-timeout error recorded when the polling deadline elapses.
Only its being a fixed non-empty message is used. -/
def ErrClientTimeout : String := "client: timeout"

/-- Modelled from the spec: `errors.ErrImgInvalid` lives in the `errors`
package, whose file defining it is not part of the sources; it is the
default invalid-image message used when the server reports an `Invalid`
state with no error messages. Only its being a fixed non-empty message is
used. -/
def ErrImgInvalid : String := "image: invalid"

/-- A response is terminal for the poll loop of `part_003`: a transport
error, or state `Ready` or `Invalid`. -/
def isTerminalResp : Resp → Bool
  | .error _ => true
  | .ok q => q.State == "Ready" || q.State == "Invalid"

/-- The polling goroutine of `part_003`'s `checkState` (lines 68–93):
each iteration issues a fresh `gql.ProjectImage` query (here: consumes the
next response), finishing on a transport error, on `Ready`, or on
`Invalid` (joining the server error list with ";", falling back to
`ErrImgInvalid` when the join is empty), and otherwise updating `i.State`
and looping.  `none` means the loop is still running after consuming every
given response. -/
def pollLoop3 (img : Image) : List Resp → Option Image
  | [] => none
  | r :: rs =>
    match r with
    | .error e => some { img with Error := e }
    | .ok q =>
      let i := { img with State := q.State }
      if q.State = "Ready" then some i
      else if q.State = "Invalid" then
        let e := String.intercalate ";" q.Error
        some { i with Error := if e = "" then ErrImgInvalid else e }
      else pollLoop3 i rs

/-- Number of `gql.ProjectImage` calls the `part_003` goroutine makes,
given the (finite) list of responses it observes: one per iteration,
stopping after the first terminal response. -/
def queries3 : List Resp → Nat
  | [] => 0
  | r :: rs => if isTerminalResp r then 1 else 1 + queries3 rs

/-- Number of `time.Sleep(time.Second)` calls the `part_003` goroutine
makes: one after every non-terminal response. -/
def sleeps3 : List Resp → Nat
  | [] => 0
  | r :: rs => if isTerminalResp r then 0 else 1 + sleeps3 rs

/-- The `checkState` of `part_003` (lines 61–103): an item already carrying an
error is returned unchanged before any query; otherwise the poll loop is
raced against the timeout.  `k` is the number of responses that arrive
before the timeout fires: if the loop finishes within those, its result is
returned, else the original item with `ErrClientTimeout` recorded. -/
def checkState3 (img : Image) (resps : List Resp) (k : Nat) : Image :=
  if img.Error ≠ "" then img
  else
    match pollLoop3 img (resps.take k) with
    | some i => i
    | none => { img with Error := ErrClientTimeout }

/-- Number of remote queries a single `part_003` `checkState` call issues:
zero when the item already carries an error (early return before the
goroutine is spawned), else one per loop iteration completed before the
timeout. -/
def checkState3Queries (img : Image) (resps : List Resp) (k : Nat) : Nat :=
  if img.Error ≠ "" then 0 else queries3 (resps.take k)

/-- The goroutine of `part_004`'s `checkState` (lines 64–81): it calls
`gql.ProjectImage` exactly once, BEFORE its `for` loop, and the loop body
never queries again; it finishes only if that single response is a
transport error or has state `Ready` or `Invalid`, and otherwise sleeps
forever on the stale response.  The argument is the single query's
response, `none` if it never arrives. -/
def pollLoop4 (img : Image) : Option Resp → Option Image
  | none => none
  | some (.error e) => some { img with Error := e }
  | some (.ok q) =>
    let i := { img with State := q.State }
    if q.State = "Ready" ∨ q.State = "Invalid" then some i else none

/-- The `checkState` of `part_004` (lines 60–91): no guard on a pre-existing
item error; the single-query loop raced against `timer.C`. -/
def checkState4 (img : Image) (resp : Option Resp) : Image :=
  match pollLoop4 img resp with
  | some i => i
  | none => { img with Error := ErrClientTimeout }

/-- The `checkState` of `part_004` fed with the same oracle shape as
`checkState3`: of the response list, only the head can ever be consumed,
and it is consumed only if at least one response arrives before the
timeout (`k ≥ 1`). -/
def checkState4L (img : Image) (resps : List Resp) (k : Nat) : Image :=
  checkState4 img (resps.take k).head?

/-- Number of remote queries a single `part_004` `checkState` call issues:
always exactly one, unconditionally, before the loop. -/
def checkState4Queries (_img : Image) (_resps : List Resp) (_k : Nat) : Nat := 1

/-- A worker pool run over a finite item list, each item checked by the
`part_003` `checkState` with its own oracle (responses and the count
arriving before its own timeout): one finalized item per input item. -/
def checkAll3 (oracle : Image → List Resp × Nat) (imgs : List Image) :
    List Image :=
  imgs.map fun i => checkState3 i (oracle i).1 (oracle i).2

/-- The effective worker count of `ImageStateChecker.Run` (`part_003` lines
37–57, identical in `part_004`): `n` if positive, else
`runtime.NumCPU()`. -/
def runEffectiveN (numCPU : Nat) (n : Int) : Int :=
  if n ≤ 0 then (numCPU : Int) else n

/-- Number of goroutines started by `Run`'s loop
`for i := 0; i < n; i++ { go ... }` after the adjustment of `n`. -/
def runWorkersStarted (numCPU : Nat) (n : Int) : Nat :=
  (runEffectiveN numCPU n).toNat

/-- One worker's `Digest` loop (`part_003` lines 24–32) traced with
`Done` already closed before the worker begins: `for img := range
isc.Images` pulls the next image and runs `checkState` to completion
(issuing its remote queries) before the `select` runs; with `Done` closed
the `select` picks nondeterministically between the `Result <-` send
(possible while a consumer still receives) and the `<-Done` branch.  The
`sched` argument resolves that choice per item: `true` means the send
branch won, the result is emitted and the loop continues; otherwise the
`<-Done` branch wins and the worker returns, dropping the finished
result.  Returns the items actually emitted to `Result` together with the
number of remote queries issued after `Done` was closed. -/
def digestDoneClosed3 (oracle : Image → List Resp × Nat) :
    List Bool → List Image → List Image × Nat
  | _, [] => ([], 0)
  | sched, img :: rest =>
    let q := checkState3Queries img (oracle img).1 (oracle img).2
    match sched with
    | true :: sched2 =>
      let p := digestDoneClosed3 oracle sched2 rest
      (checkState3 img (oracle img).1 (oracle img).2 :: p.1, q + p.2)
    | _ => ([], q)

/-- Synchronisation state of one `Run` pool (`part_003` lines 40–54):
`running` counts workers that have not yet called `wg.Done()` (initially
`n`), and `resultClosed` records whether the waiter goroutine has executed
`close(isc.Result)` after `wg.Wait()` returned. -/
structure PoolState where
  running : Nat
  resultClosed : Bool
deriving Repr, DecidableEq

/-- Atomic synchronisation events of the pool: a worker finishes
(`wg.Done()` decrements the counter), or the single waiter goroutine,
whose `wg.Wait()` returns only once the counter reaches zero, executes its
one `close(isc.Result)` statement. -/
inductive PoolStep : PoolState → PoolState → Prop
  | workerDone (r : Nat) (c : Bool) : PoolStep ⟨r + 1, c⟩ ⟨r, c⟩
  | waiterClose : PoolStep ⟨0, false⟩ ⟨0, true⟩

/-- States reachable by a pool started with `n` workers. -/
inductive PoolReach (n : Nat) : PoolState → Prop
  | init : PoolReach n ⟨n, false⟩
  | step {s t : PoolState} : PoolReach n s → PoolStep s t → PoolReach n t

/-- The logging callback of `service.Check`: either `log.Printf` (the
default substituted for a nil logger) or some caller-supplied function,
identified abstractly. -/
inductive Logger where
  | printf : Logger
  | custom : Nat → Logger
deriving Repr, DecidableEq

/-- One precondition checker (`service.CheckFn`): receives the logging
callback and returns `nil` (pass) or an error. -/
abbrev CheckFn := Logger → Option String

/-- The loop body of `service.Check` (`src/service/checker.go` lines
34–40): run each checker in order with the logger, returning the first
error. -/
def checkList (l : Logger) : List CheckFn → Option String
  | [] => none
  | c :: cs =>
    match c l with
    | some e => some e
    | none => checkList l cs

/-- The function `service.Check` (`src/service/checker.go` lines 30–41):
substitutes `log.Printf` for a nil logger, then runs the checkers in
order, short-circuiting on the first failure. -/
def Check (logger : Option Logger) (cs : List CheckFn) : Option String :=
  checkList (logger.getD Logger.printf) cs

/-- Number of checker functions `service.Check`'s loop actually invokes:
every checker up to and including the first failing one. -/
def checkListRan (l : Logger) : List CheckFn → Nat
  | [] => 0
  | c :: cs =>
    match c l with
    | some _ => 1
    | none => 1 + checkListRan l cs

/-- The fields of `types.Project` used by `service.CheckPID`. -/
structure Project where
  ID : String
  IsImported : Bool
deriving Repr, DecidableEq

/-- The constant `errors.ErrProjNotFound` (`src/unnamed/part_000`). -/
def ErrProjNotFound : String := "project: not found"

/-- The checker built by `service.CheckPID` (`src/service/checker.go`
lines 157–181), with the result of `gql.SearchProjectID(pid, true)` passed
as an explicit oracle: a search error is returned as is; otherwise kind
`"meta"` rejects an imported project and kind `"model"` rejects a
non-imported one with `ErrProjNotFound`, while `"image"` and every other
kind accept any found project. -/
def CheckPID (kind : String) (search : Except String Project) :
    Option String :=
  match search with
  | .error e => some e
  | .ok p =>
    match kind with
    | "image" => none
    | "meta" => if p.IsImported then some ErrProjNotFound else none
    | "model" => if !p.IsImported then some ErrProjNotFound else none
    | _ => none

/-! ## Helper lemmas -/

lemma isTerminalResp_eq_false {r : Resp} (h : isTerminalResp r = false) :
    ∃ q, r = .ok q ∧ q.State ≠ "Ready" ∧ q.State ≠ "Invalid" := by
  cases r with
  | error e => simp [isTerminalResp] at h
  | ok q =>
    simp only [isTerminalResp, Bool.or_eq_false_iff, beq_eq_false_iff_ne] at h
    exact ⟨q, rfl, h.1, h.2⟩

lemma pollLoop3_none_of_nonterminal :
    ∀ (l : List Resp), (∀ r ∈ l, isTerminalResp r = false) →
      ∀ img : Image, pollLoop3 img l = none
  | [], _, _ => rfl
  | r :: l, h, img => by
    obtain ⟨q, rfl, hR, hI⟩ := isTerminalResp_eq_false (h r (by simp))
    simp only [pollLoop3, hR, hI, if_false]
    exact pollLoop3_none_of_nonterminal l (fun r hr => h r (by simp [hr])) _

lemma pollLoop3_append_nonterminal :
    ∀ (pre : List Resp), (∀ r ∈ pre, isTerminalResp r = false) →
      ∀ (img : Image) (l : List Resp),
        ∃ s, pollLoop3 img (pre ++ l) = pollLoop3 { img with State := s } l
  | [], _, img, l => ⟨img.State, rfl⟩
  | r :: pre, h, img, l => by
    obtain ⟨q, rfl, hR, hI⟩ := isTerminalResp_eq_false (h r (by simp))
    obtain ⟨s, hs⟩ := pollLoop3_append_nonterminal pre
      (fun r hr => h r (by simp [hr])) { img with State := q.State } l
    exact ⟨s, by simpa [pollLoop3, hR, hI] using hs⟩

lemma pollLoop3_cons_terminal {t : Resp} (ht : isTerminalResp t = true)
    (img : Image) (rest : List Resp) :
    (pollLoop3 img (t :: rest)).isSome = true := by
  cases t with
  | error e => rfl
  | ok q =>
    simp only [isTerminalResp, Bool.or_eq_true, beq_iff_eq] at ht
    rcases ht with h | h <;> simp [pollLoop3, h]

lemma queries3_of_nonterminal :
    ∀ (l : List Resp), (∀ r ∈ l, isTerminalResp r = false) →
      queries3 l = l.length
  | [], _ => rfl
  | r :: l, h => by
    have hr : isTerminalResp r = false := h r (by simp)
    have ih := queries3_of_nonterminal l (fun r hr => h r (by simp [hr]))
    simp [queries3, hr, ih]; omega

lemma sleeps3_of_nonterminal :
    ∀ (l : List Resp), (∀ r ∈ l, isTerminalResp r = false) →
      sleeps3 l = l.length
  | [], _ => rfl
  | r :: l, h => by
    have hr : isTerminalResp r = false := h r (by simp)
    have ih := sleeps3_of_nonterminal l (fun r hr => h r (by simp [hr]))
    simp [sleeps3, hr, ih]; omega

lemma queries3_append_terminal :
    ∀ (pre : List Resp), (∀ r ∈ pre, isTerminalResp r = false) →
      ∀ {t : Resp}, isTerminalResp t = true → ∀ (rest : List Resp),
        queries3 (pre ++ t :: rest) = pre.length + 1
  | [], _, t, ht, rest => by simp [queries3, ht]
  | r :: pre, h, t, ht, rest => by
    have hr : isTerminalResp r = false := h r (by simp)
    have ih := queries3_append_terminal pre (fun r hr => h r (by simp [hr])) ht rest
    simp [queries3, hr, ih]; omega

lemma checkList_eq_none_iff (l : Logger) :
    ∀ cs : List CheckFn, checkList l cs = none ↔ ∀ c ∈ cs, c l = none
  | [] => by simp [checkList]
  | c :: cs => by
    cases hc : c l with
    | none => simp [checkList, hc, checkList_eq_none_iff l cs]
    | some e => simp [checkList, hc]

lemma checkList_append_pass (l : Logger) :
    ∀ pre : List CheckFn, (∀ c ∈ pre, c l = none) → ∀ rest : List CheckFn,
      checkList l (pre ++ rest) = checkList l rest ∧
      checkListRan l (pre ++ rest) = pre.length + checkListRan l rest
  | [], _, rest => ⟨rfl, by simp⟩
  | c :: pre, h, rest => by
    have hc : c l = none := h c (by simp)
    have ih := checkList_append_pass l pre (fun c hc => h c (by simp [hc])) rest
    refine ⟨by simp [checkList, hc, ih.1], ?_⟩
    simp [checkListRan, hc, ih.2]; omega

lemma checkState3_timeout_of_nonterminal (img : Image) (resps : List Resp)
    (k : Nat) (hne : img.Error = "")
    (h : ∀ r ∈ resps.take k, isTerminalResp r = false) :
    checkState3 img resps k = { img with Error := ErrClientTimeout } := by
  simp [checkState3, hne, pollLoop3_none_of_nonterminal _ h]

lemma checkState4L_timeout_of_nonterminal (img : Image) (resps : List Resp)
    (k : Nat) (h : ∀ r ∈ resps.take k, isTerminalResp r = false) :
    checkState4L img resps k = { img with Error := ErrClientTimeout } := by
  cases htk : resps.take k with
  | nil => simp [checkState4L, checkState4, pollLoop4, htk]
  | cons r l =>
    obtain ⟨q, rfl, hR, hI⟩ := isTerminalResp_eq_false (h r (by rw [htk]; simp))
    simp [checkState4L, checkState4, pollLoop4, htk, hR, hI]

lemma digestDoneClosed3_emitted_prefix (oracle : Image → List Resp × Nat) :
    ∀ (sched : List Bool) (imgs : List Image),
      ∃ m, (digestDoneClosed3 oracle sched imgs).1
        = (imgs.take m).map (fun i => checkState3 i (oracle i).1 (oracle i).2)
  | _, [] => ⟨0, by simp [digestDoneClosed3]⟩
  | [], img :: rest => ⟨0, by simp [digestDoneClosed3]⟩
  | false :: sched2, img :: rest => ⟨0, by simp [digestDoneClosed3]⟩
  | true :: sched2, img :: rest => by
    obtain ⟨m, hm⟩ := digestDoneClosed3_emitted_prefix oracle sched2 rest
    exact ⟨m + 1, by simp [digestDoneClosed3, hm]⟩

/-! ## Claims -/

/-- C1 (amended): for an item with no pre-existing error, the `part_003`
poll loop issues exactly one fresh query per iteration with a one-second
sleep after each non-terminal response, keeps looping while responses are
non-terminal, and stops querying exactly at the first terminal response
(`Ready`, `Invalid`, or a transport error) — after which no further query
is issued, whatever responses would follow; the `part_004` variant
instead always issues exactly one query, before its loop. -/
theorem c1_poller_query_discipline (img : Image) (pre rest : List Resp)
    (t : Resp) (hpre : ∀ r ∈ pre, isTerminalResp r = false)
    (ht : isTerminalResp t = true) :
    queries3 pre = pre.length ∧
    sleeps3 pre = pre.length ∧
    pollLoop3 img pre = none ∧
    queries3 (pre ++ t :: rest) = pre.length + 1 ∧
    (pollLoop3 img (pre ++ t :: rest)).isSome = true ∧
    checkState4Queries img (pre ++ t :: rest) (pre.length + 1) = 1 := by
  obtain ⟨s, hs⟩ := pollLoop3_append_nonterminal pre hpre img (t :: rest)
  exact ⟨queries3_of_nonterminal pre hpre, sleeps3_of_nonterminal pre hpre,
    pollLoop3_none_of_nonterminal pre hpre img,
    queries3_append_terminal pre hpre ht rest,
    by rw [hs]; exact pollLoop3_cons_terminal ht _ rest,
    rfl⟩

/-- C1 (witness): a Pending response followed by a Ready one. -/
theorem c1_poller_query_discipline_witness :
    queries3 [Resp.ok ⟨"Pending", []⟩] = 1 ∧
    sleeps3 [Resp.ok ⟨"Pending", []⟩] = 1 ∧
    pollLoop3 ⟨"p1", "i1", "Pending", ""⟩ [Resp.ok ⟨"Pending", []⟩] = none ∧
    queries3 [Resp.ok ⟨"Pending", []⟩, Resp.ok ⟨"Ready", []⟩] = 2 ∧
    (pollLoop3 ⟨"p1", "i1", "Pending", ""⟩
      [Resp.ok ⟨"Pending", []⟩, Resp.ok ⟨"Ready", []⟩]).isSome = true ∧
    checkState4Queries ⟨"p1", "i1", "Pending", ""⟩
      [Resp.ok ⟨"Pending", []⟩, Resp.ok ⟨"Ready", []⟩] 2 = 1 :=
  c1_poller_query_discipline ⟨"p1", "i1", "Pending", ""⟩
    [Resp.ok ⟨"Pending", []⟩] [] (Resp.ok ⟨"Ready", []⟩)
    (by decide) (by decide)

/-- C1 (counterexample): the `part_004` variant does not issue one fresh
query per loop iteration and does not stop exactly when a queried state
is terminal: with a Pending reply followed by a Ready one, it issues its
single query before the loop, never observes the later Ready state, and
times out, while the `part_003` variant re-queries and finishes Ready. -/
theorem c1_part4_counterexample :
    checkState4Queries ⟨"p1", "i1", "Pending", ""⟩
        [Resp.ok ⟨"Pending", []⟩, Resp.ok ⟨"Ready", []⟩] 2 = 1 ∧
    queries3 [Resp.ok ⟨"Pending", []⟩, Resp.ok ⟨"Ready", []⟩] = 2 ∧
    checkState4L ⟨"p1", "i1", "Pending", ""⟩
        [Resp.ok ⟨"Pending", []⟩, Resp.ok ⟨"Ready", []⟩] 2
      = ⟨"p1", "i1", "Pending", ErrClientTimeout⟩ ∧
    checkState3 ⟨"p1", "i1", "Pending", ""⟩
        [Resp.ok ⟨"Pending", []⟩, Resp.ok ⟨"Ready", []⟩] 2
      = ⟨"p1", "i1", "Ready", ""⟩ := by decide

/-- C2 (amended): the `part_003` `checkState` returns an item already
carrying a non-empty error unchanged, issuing no remote query. -/
theorem c2_early_return (img : Image) (resps : List Resp) (k : Nat)
    (h : img.Error ≠ "") :
    checkState3 img resps k = img ∧ checkState3Queries img resps k = 0 := by
  constructor <;> simp [checkState3, checkState3Queries, h]

/-- C2 (witness): an item with a registration error is passed through. -/
theorem c2_early_return_witness :
    checkState3 ⟨"p1", "i1", "Pending", "reg: failed"⟩
        [Resp.ok ⟨"Ready", []⟩] 1
      = ⟨"p1", "i1", "Pending", "reg: failed"⟩ ∧
    checkState3Queries ⟨"p1", "i1", "Pending", "reg: failed"⟩
        [Resp.ok ⟨"Ready", []⟩] 1 = 0 :=
  c2_early_return ⟨"p1", "i1", "Pending", "reg: failed"⟩
    [Resp.ok ⟨"Ready", []⟩] 1 (by decide)

/-- C2 (counterexample): the `part_004` `checkState` has no guard on a
pre-existing item error: an item carrying "reg: failed" is still queried
(exactly one query) and comes back changed, its state overwritten from
the reply. -/
theorem c2_part4_counterexample :
    checkState4L ⟨"p1", "i1", "Pending", "reg: failed"⟩
        [Resp.ok ⟨"Ready", []⟩] 1
      = ⟨"p1", "i1", "Ready", "reg: failed"⟩ ∧
    checkState4L ⟨"p1", "i1", "Pending", "reg: failed"⟩
        [Resp.ok ⟨"Ready", []⟩] 1
      ≠ ⟨"p1", "i1", "Pending", "reg: failed"⟩ ∧
    checkState4Queries ⟨"p1", "i1", "Pending", "reg: failed"⟩
        [Resp.ok ⟨"Ready", []⟩] 1 = 1 := by decide

/-- C3: if no terminal response is observed before the per-item timeout
fires (after `k` responses), both `checkState` variants finalize the item
with the client-timeout error; whatever the abandoned loop would
eventually produce from responses past the timeout is discarded (only the
pre-timeout prefix matters); and items are finalized independently: in a
pool run each input item yields exactly its own `checkState` result, so
one item's timeout neither retries it nor disturbs its siblings. -/
theorem c3_timeout_finalization (img : Image) (resps : List Resp) (k : Nat)
    (hne : img.Error = "")
    (hto : ∀ r ∈ resps.take k, isTerminalResp r = false) :
    checkState3 img resps k = { img with Error := ErrClientTimeout } ∧
    (∀ resps2 : List Resp, resps2.take k = resps.take k →
      checkState3 img resps2 k = { img with Error := ErrClientTimeout }) ∧
    checkState4L img resps k = { img with Error := ErrClientTimeout } ∧
    (∀ (oracle : Image → List Resp × Nat) (xs ys : List Image),
      checkAll3 oracle (xs ++ img :: ys)
        = checkAll3 oracle xs
          ++ checkState3 img (oracle img).1 (oracle img).2
            :: checkAll3 oracle ys) := by
  refine ⟨checkState3_timeout_of_nonterminal img resps k hne hto,
    fun resps2 h2 => checkState3_timeout_of_nonterminal img resps2 k hne
      (by rw [h2]; exact hto),
    checkState4L_timeout_of_nonterminal img resps k hto,
    fun oracle xs ys => by simp [checkAll3]⟩

/-- C3 (witness): a Pending-only oracle with a two-response budget,
including the discarding of a Ready reply arriving past the timeout. -/
theorem c3_timeout_finalization_witness :
    checkState3 ⟨"p1", "i1", "Pending", ""⟩ [Resp.ok ⟨"Pending", []⟩] 1
      = ⟨"p1", "i1", "Pending", ErrClientTimeout⟩ ∧
    checkState3 ⟨"p1", "i1", "Pending", ""⟩
        [Resp.ok ⟨"Pending", []⟩, Resp.ok ⟨"Ready", []⟩] 1
      = ⟨"p1", "i1", "Pending", ErrClientTimeout⟩ ∧
    checkState4L ⟨"p1", "i1", "Pending", ""⟩ [Resp.ok ⟨"Pending", []⟩] 1
      = ⟨"p1", "i1", "Pending", ErrClientTimeout⟩ := by
  have h := c3_timeout_finalization ⟨"p1", "i1", "Pending", ""⟩
    [Resp.ok ⟨"Pending", []⟩] 1 (by decide) (by decide)
  exact ⟨h.1,
    h.2.1 [Resp.ok ⟨"Pending", []⟩, Resp.ok ⟨"Ready", []⟩] (by decide),
    h.2.2.1⟩

/-- C4 (amended): a remote query returning `Invalid` finalizes the item
(in the `part_003` variant) as `Invalid` with its error set to the
server's error list joined with ";" when that join is non-empty, and to
the default invalid-image error when the server reports no messages. -/
theorem c4_invalid_message (img : Image) (pre rest : List Resp)
    (es : List String) (k : Nat) (hne : img.Error = "")
    (hpre : ∀ r ∈ pre, isTerminalResp r = false)
    (hk : pre.length + 1 ≤ k) :
    checkState3 img (pre ++ Resp.ok ⟨"Invalid", es⟩ :: rest) k
      = { img with
          State := "Invalid"
          Error := if String.intercalate ";" es = "" then ErrImgInvalid
                   else String.intercalate ";" es } := by
  have hlen : pre.length ≤ k := by omega
  have hm : k - pre.length = (k - pre.length - 1) + 1 := by omega
  have htake : (pre ++ Resp.ok ⟨"Invalid", es⟩ :: rest).take k
      = pre ++ Resp.ok ⟨"Invalid", es⟩ :: rest.take (k - pre.length - 1) := by
    rw [List.take_append_eq_append_take, List.take_of_length_le hlen, hm,
      List.take_succ_cons, Nat.add_sub_cancel]
  obtain ⟨s, hs⟩ := pollLoop3_append_nonterminal pre hpre img
    (Resp.ok ⟨"Invalid", es⟩ :: rest.take (k - pre.length - 1))
  simp [checkState3, hne, htake, hs, pollLoop3]

/-- C4 (witness): a Pending reply, then `Invalid` with message "corrupt". -/
theorem c4_invalid_message_witness :
    checkState3 ⟨"p1", "i1", "Pending", ""⟩
        [Resp.ok ⟨"Pending", []⟩, Resp.ok ⟨"Invalid", ["corrupt"]⟩] 2
      = ⟨"p1", "i1", "Invalid", "corrupt"⟩ :=
  (c4_invalid_message ⟨"p1", "i1", "Pending", ""⟩ [Resp.ok ⟨"Pending", []⟩]
    [] ["corrupt"] 2 (by decide) (by decide) (by decide)).trans (by decide)

/-- C4 (counterexample): when the server reports `Invalid` with an empty
error list, the finalized error is the default invalid-image message, not
the (empty) join of the server's messages. -/
theorem c4_empty_message_counterexample :
    (checkState3 ⟨"p1", "i1", "Pending", ""⟩ [Resp.ok ⟨"Invalid", []⟩] 1).Error
      = ErrImgInvalid ∧
    (checkState3 ⟨"p1", "i1", "Pending", ""⟩ [Resp.ok ⟨"Invalid", []⟩] 1).Error
      ≠ String.intercalate ";" ([] : List String) ∧
    (checkState3 ⟨"p1", "i1", "Pending", ""⟩ [Resp.ok ⟨"Invalid", []⟩] 1).State
      = "Invalid" := by decide

/-- C5: `Run` starts exactly `n` workers when `n > 0`, exactly
`runtime.NumCPU()` workers when `n ≤ 0`, and in both cases the value it
returns is the number of workers it started. -/
theorem c5_run_worker_count (numCPU : Nat) (n : Int) :
    (0 < n → runEffectiveN numCPU n = n ∧
      (runWorkersStarted numCPU n : Int) = n) ∧
    (n ≤ 0 → runEffectiveN numCPU n = numCPU ∧
      runWorkersStarted numCPU n = numCPU) ∧
    (runWorkersStarted numCPU n : Int) = runEffectiveN numCPU n := by
  unfold runWorkersStarted runEffectiveN
  split <;>
    exact ⟨fun h => ⟨by omega, by omega⟩, fun h => ⟨by omega, by omega⟩, by omega⟩

/-- C5 (witness): a 4-core host with `n = 3` and with `n = -2`. -/
theorem c5_run_worker_count_witness :
    runEffectiveN 4 3 = 3 ∧ runWorkersStarted 4 3 = 3 ∧
    runEffectiveN 4 (-2) = 4 ∧ runWorkersStarted 4 (-2) = 4 := by
  have h1 := c5_run_worker_count 4 3
  have h2 := c5_run_worker_count 4 (-2)
  refine ⟨(h1.1 (by decide)).1, ?_, (h2.2.1 (by decide)).1, (h2.2.1 (by decide)).2⟩
  have h3 := (h1.1 (by decide)).2
  omega

/-- C6: `service.Check` substitutes `log.Printf` for a nil logger, hands
that logger to every checker it runs, runs the checkers in order,
short-circuits on the first failure — returning that checker's error
after having invoked exactly the checkers up to and including it — and
returns nil exactly when every checker passes. -/
theorem c6_check_order_short_circuit (logger : Option Logger)
    (pre post : List CheckFn) (c : CheckFn) (e : String)
    (hpre : ∀ c2 ∈ pre, c2 (logger.getD Logger.printf) = none)
    (hc : c (logger.getD Logger.printf) = some e) :
    Check logger (pre ++ c :: post) = some e ∧
    checkListRan (logger.getD Logger.printf) (pre ++ c :: post)
      = pre.length + 1 ∧
    (∀ cs : List CheckFn, Check logger cs = none ↔
      ∀ c2 ∈ cs, c2 (logger.getD Logger.printf) = none) := by
  have hap := checkList_append_pass (logger.getD Logger.printf) pre hpre (c :: post)
  refine ⟨?_, ?_, fun cs => checkList_eq_none_iff (logger.getD Logger.printf) cs⟩
  · unfold Check
    rw [hap.1]
    simp [checkList, hc]
  · rw [hap.2]
    simp [checkListRan, hc]

/-- C6 (witness): three checkers, the second failing; `Check` returns its
error and the third checker is never run. -/
theorem c6_check_order_short_circuit_witness :
    Check none
        [fun _ => none,
         fun l => if l = Logger.printf then some "fail2" else none,
         fun _ => some "fail3"]
      = some "fail2" ∧
    checkListRan Logger.printf
        [fun _ => none,
         fun l => if l = Logger.printf then some "fail2" else none,
         fun _ => some "fail3"]
      = 2 := by
  have h := c6_check_order_short_circuit none
    [fun _ => none] [fun _ => some "fail3"]
    (fun l => if l = Logger.printf then some "fail2" else none) "fail2"
    (by intro c2 hc2; simp only [List.mem_singleton] at hc2; subst hc2; rfl)
    (by decide)
  exact ⟨h.1, h.2.1⟩

/-- C7: in every reachable synchronisation state of a pool started with
`n` workers, the result stream being closed implies every one of the `n`
workers has already returned, and from a closed state no further
synchronisation step — in particular no second close — is possible. -/
theorem c7_close_once_after_join (n : Nat) (s : PoolState)
    (h : PoolReach n s) :
    (s.resultClosed = true → s.running = 0) ∧
    (s.resultClosed = true → ∀ t, ¬ PoolStep s t) := by
  induction h with
  | init => exact ⟨fun hc => by simp at hc, fun hc => by simp at hc⟩
  | step hreach hstep ih =>
    cases hstep with
    | workerDone r c =>
      exact ⟨fun hc => absurd (ih.1 hc) (by simp),
        fun hc => absurd (ih.1 hc) (by simp)⟩
    | waiterClose =>
      exact ⟨fun _ => rfl, fun _ t ht => nomatch ht⟩

/-- C7 (witness): a two-worker pool that ran to completion and closed. -/
theorem c7_close_once_after_join_witness :
    (⟨0, true⟩ : PoolState).running = 0 ∧
    ¬ PoolStep ⟨0, true⟩ ⟨0, false⟩ := by
  have hreach : PoolReach 2 ⟨0, true⟩ :=
    .step (.step (.step .init (.workerDone 1 false)) (.workerDone 0 false))
      .waiterClose
  have h := c7_close_once_after_join 2 ⟨0, true⟩ hreach
  exact ⟨h.1 rfl, h.2 rfl ⟨0, false⟩⟩

/-- C8 (amended): once `Done` is closed, cancellation is observed only at
the result-send `select`, never inside an item's poll loop.  Under every
resolution of the `select` races: each item the worker pulls has its
`checkState` run to a terminal state or its per-item timeout, issuing its
full count of remote queries regardless of `Done` (the first pulled
item's queries are always incurred); everything emitted is the ordinary
`checkState` result of a prefix of the items, so no cancellation-style
item error is ever recorded; when the `<-Done` branch wins a `select` the
worker returns at once, dropping that one finished result and taking no
further item; when the send branch wins, the unmodified result is emitted
and the loop continues with the remaining items. -/
theorem c8_digest_cancellation (oracle : Image → List Resp × Nat)
    (sched : List Bool) (img : Image) (rest : List Image) :
    (∃ qs, (digestDoneClosed3 oracle sched (img :: rest)).2
        = checkState3Queries img (oracle img).1 (oracle img).2 + qs) ∧
    (∃ m, (digestDoneClosed3 oracle sched (img :: rest)).1
        = ((img :: rest).take m).map
            (fun i => checkState3 i (oracle i).1 (oracle i).2)) ∧
    (∀ sched2 : List Bool,
      digestDoneClosed3 oracle (false :: sched2) (img :: rest)
        = ([], checkState3Queries img (oracle img).1 (oracle img).2)) ∧
    (∀ sched2 : List Bool,
      digestDoneClosed3 oracle (true :: sched2) (img :: rest)
        = (checkState3 img (oracle img).1 (oracle img).2
             :: (digestDoneClosed3 oracle sched2 rest).1,
           checkState3Queries img (oracle img).1 (oracle img).2
             + (digestDoneClosed3 oracle sched2 rest).2)) := by
  refine ⟨?_, digestDoneClosed3_emitted_prefix oracle sched (img :: rest),
    fun sched2 => rfl, fun sched2 => rfl⟩
  match sched with
  | [] => exact ⟨0, rfl⟩
  | false :: sched2 => exact ⟨0, rfl⟩
  | true :: sched2 => exact ⟨(digestDoneClosed3 oracle sched2 rest).2, rfl⟩

/-- C8 (counterexample): with `Done` closed from the start, the worker
still pulls the next image and its poll loop still issues fresh blocking
remote queries — two here, with a one-second sleep between them, not zero
within one tick — under either outcome of the `select` race; and the
cancellation is never surfaced as an item error: either nothing is
emitted, or the ordinary `checkState` result is. -/
theorem c8_counterexample :
    (digestDoneClosed3
        (fun _ => ([Resp.ok ⟨"Pending", []⟩, Resp.ok ⟨"Ready", []⟩], 2))
        [false] [⟨"p1", "i1", "Pending", ""⟩]).2 = 2 ∧
    (digestDoneClosed3
        (fun _ => ([Resp.ok ⟨"Pending", []⟩, Resp.ok ⟨"Ready", []⟩], 2))
        [false] [⟨"p1", "i1", "Pending", ""⟩]).1 = [] ∧
    (digestDoneClosed3
        (fun _ => ([Resp.ok ⟨"Pending", []⟩, Resp.ok ⟨"Ready", []⟩], 2))
        [true] [⟨"p1", "i1", "Pending", ""⟩]).2 = 2 ∧
    (digestDoneClosed3
        (fun _ => ([Resp.ok ⟨"Pending", []⟩, Resp.ok ⟨"Ready", []⟩], 2))
        [true] [⟨"p1", "i1", "Pending", ""⟩]).1
      = [⟨"p1", "i1", "Ready", ""⟩] := by decide

/-- C9 (amended): the two `checkState` variants are not equivalent in
general, but they do agree whenever the item has no pre-existing error
and either no response arrives before the timeout, or the first response
is a transport error or `Ready`, or no observed response is terminal
(both time out). -/
theorem c9_variant_agreement (img : Image) (resps : List Resp) (k : Nat)
    (hne : img.Error = "")
    (hagree : resps.take k = [] ∨
      (∃ e rest2, resps.take k = Resp.error e :: rest2) ∨
      (∃ q rest2, resps.take k = Resp.ok q :: rest2 ∧ q.State = "Ready") ∨
      (∀ r ∈ resps.take k, isTerminalResp r = false)) :
    checkState3 img resps k = checkState4L img resps k := by
  rcases hagree with h | ⟨e, rest2, h⟩ | ⟨q, rest2, h, hq⟩ | h
  · simp [checkState3, checkState4L, checkState4, pollLoop3, pollLoop4, hne, h]
  · simp [checkState3, checkState4L, checkState4, pollLoop3, pollLoop4, hne, h]
  · simp [checkState3, checkState4L, checkState4, pollLoop3, pollLoop4, hne, h, hq]
  · rw [checkState3_timeout_of_nonterminal img resps k hne h,
      checkState4L_timeout_of_nonterminal img resps k h]

/-- C9 (witness): both variants map a first-response transport error to
the same finalized item. -/
theorem c9_variant_agreement_witness :
    checkState3 ⟨"p1", "i1", "Pending", ""⟩ [Resp.error "conn refused"] 1
      = checkState4L ⟨"p1", "i1", "Pending", ""⟩ [Resp.error "conn refused"] 1 :=
  c9_variant_agreement ⟨"p1", "i1", "Pending", ""⟩ [Resp.error "conn refused"] 1
    (by decide) (Or.inr (Or.inl ⟨"conn refused", [], by decide⟩))

/-- C9 (counterexample): on an `Invalid` first response the variants
disagree — `part_003` records the joined server messages, `part_004`
leaves the item error empty. -/
theorem c9_counterexample :
    checkState3 ⟨"p1", "i1", "Pending", ""⟩ [Resp.ok ⟨"Invalid", ["corrupt"]⟩] 1
      ≠ checkState4L ⟨"p1", "i1", "Pending", ""⟩
          [Resp.ok ⟨"Invalid", ["corrupt"]⟩] 1 := by decide

/-- C10: `CheckPID`'s kind-compatibility on a found project is
asymmetric: kind "meta" fails with the project-not-found error exactly
when the project is already imported, kind "model" exactly when it is not
imported, and any other kind — "image", the empty string, anything else —
accepts every found project with no compatibility check. -/
theorem c10_checkpid_kinds (p : Project) (kind : String)
    (hk : kind ≠ "meta" ∧ kind ≠ "model") :
    (CheckPID "meta" (Except.ok p) = some ErrProjNotFound ↔
      p.IsImported = true) ∧
    (CheckPID "model" (Except.ok p) = some ErrProjNotFound ↔
      p.IsImported = false) ∧
    CheckPID kind (Except.ok p) = none := by
  refine ⟨?_, ?_, ?_⟩
  · cases hp : p.IsImported <;> simp [CheckPID, hp]
  · cases hp : p.IsImported <;> simp [CheckPID, hp]
  · simp only [CheckPID]
    split <;> simp_all

/-- C10 (witness): an imported project with kind "image". -/
theorem c10_checkpid_kinds_witness :
    (CheckPID "meta" (Except.ok ⟨"prj", true⟩) = some ErrProjNotFound ↔
      (⟨"prj", true⟩ : Project).IsImported = true) ∧
    (CheckPID "model" (Except.ok ⟨"prj", true⟩) = some ErrProjNotFound ↔
      (⟨"prj", true⟩ : Project).IsImported = false) ∧
    CheckPID "image" (Except.ok ⟨"prj", true⟩) = none :=
  c10_checkpid_kinds ⟨"prj", true⟩ "image" ⟨by decide, by decide⟩
